import Mathlib

/-!
Verification development for the Playwright test-automation backend
(recording-session store, selector self-healing engine, code generator).

The TypeScript sources are embedded shallowly:
* pure functions (`SelfHealingEngine`, `PlaywrightCodeGenerator`) become Lean
  functions over `String` / `List`;
* the stateful `SessionManager` becomes explicit state passing over a
  `ManagerState` record (in-memory map, durable mirror, browser flags), with
  `new Date().toISOString()` passed in as an explicit `now : String` and
  `uuidv4()` as an explicit fresh-id argument;
* JavaScript semantics that matter are modelled explicitly:
  `String.prototype.replace` replaces only the first occurrence,
  `x || y` treats the empty string and `0` as falsy,
  `[...new Set(l)]` deduplicates keeping the first occurrence in order.
-/

/-! ## JavaScript string/collection semantics helpers -/

/-- `s.includes(pat)` of JavaScript: `pat` occurs as a contiguous substring. -/
def jsIncludes (s pat : String) : Bool :=
  decide (pat.toList <:+: s.toList)

/-- Replace the first occurrence of `pat` (as a substring) by `repl`,
mirroring JavaScript `String.prototype.replace` with a string argument. -/
def replaceFirstChars (pat repl : List Char) : List Char → List Char
  | [] => if pat = [] then repl else []
  | c :: cs =>
    if pat.isPrefixOf (c :: cs) then repl ++ (c :: cs).drop pat.length
    else c :: replaceFirstChars pat repl cs

/-- String wrapper for `replaceFirstChars`. -/
def jsReplaceFirst (s pat repl : String) : String :=
  String.mk (replaceFirstChars pat.toList repl.toList s.toList)

/-- Worker for `jsSetDedup`: drop elements already seen, first occurrence wins,
mirroring iteration order of a JavaScript `Set`. -/
def jsSetFold (seen : List String) : List String → List String
  | [] => []
  | x :: xs => if x ∈ seen then jsSetFold seen xs else x :: jsSetFold (x :: seen) xs

/-- `[...new Set(l)]` of JavaScript: stable deduplication, first occurrence kept. -/
def jsSetDedup (l : List String) : List String :=
  jsSetFold [] l

/-- Modelled from the spec: "deduplicated (stable, first-occurrence-wins)" —
keep each element's first occurrence, erase every later duplicate.  Stated as a
second definition, to be compared with the source-derived `jsSetDedup`. -/
def dedupFirstOccurrence : List String → List String
  | [] => []
  | x :: xs => x :: dedupFirstOccurrence (xs.filter (fun y => y ≠ x))
termination_by l => l.length
decreasing_by
  simp only [List.length_cons]
  exact Nat.lt_succ_of_le (List.length_filter_le _ _)

/-- JavaScript `x || d` for an optional string (`undefined` and `""` are falsy). -/
def jsOrStr (x : Option String) (d : String) : String :=
  match x with
  | some s => if s = "" then d else s
  | none => d

/-- JavaScript `x || d` for an optional number (`undefined` and `0` are falsy). -/
def jsOrNat (x : Option Nat) (d : Nat) : Nat :=
  match x with
  | some n => if n = 0 then d else n
  | none => d

/-! ## Data model (`server/src/types/index.ts`) -/

/-- `TestStep['type']`: the closed union of recordable action kinds. -/
inductive StepType
  | navigate
  | click
  | fill
  | select
  | wait
  | assertion
  | screenshot
deriving DecidableEq, Repr

/-- `HealingStrategy` enum. -/
inductive HealingStrategy
  | attribute_matching
  | text_content_matching
  | positional_matching
  | visual_ai_matching
  | semantic_similarity
deriving DecidableEq, Repr

/-- `TestSession['status']`. -/
inductive SessionStatus
  | created
  | recording
  | paused
  | stopped
  | completed
deriving DecidableEq, Repr

/-- The `actionParams : Record<string, any>` payload, restricted to the keys the
code actually reads (`url`, `value`, `condition`, `timeout`, `expectedText`,
`filename`); each key is optional as in the free-form record. -/
structure ActionParams where
  url : Option String := none
  value : Option String := none
  condition : Option String := none
  timeout : Option Nat := none
  expectedText : Option String := none
  filename : Option String := none
deriving DecidableEq, Repr

/-- `TestStep`. `fallbackSelectors` and `actionParams` are optional fields in
the TypeScript interface, hence `Option` here. -/
structure TestStep where
  id : String
  type : StepType
  selector : String
  actionParams : Option ActionParams := none
  description : String
  timestamp : String
  fallbackSelectors : Option (List String) := none
  screenshot : Option String := none
deriving DecidableEq, Repr

/-- `SessionSettings`. -/
structure SessionSettings where
  healingStrategies : List HealingStrategy
  confidenceThreshold : ℚ
  maxRetryAttempts : Nat
  fallbackTimeout : Nat
  screenshotMode : String
  waitTimeout : Nat
  assertionStrictness : String
deriving DecidableEq, Repr

/-- `TestSession.metadata`. -/
structure SessionMetadata where
  viewportWidth : Nat
  viewportHeight : Nat
  userAgent : String
  browser : String
deriving DecidableEq, Repr

/-- `TestSession`. -/
structure TestSession where
  id : String
  testName : String
  targetUrl : String
  steps : List TestStep
  status : SessionStatus
  createdAt : String
  updatedAt : String
  settings : SessionSettings
  metadata : SessionMetadata
deriving DecidableEq, Repr

/-! ## Selector healing engine (`server/src/utils/SelfHealingEngine.ts`) -/

/-- One anchored attempt of the regex `data-testid="([^"]+)"`: succeeds when the
input starts with `data-testid="`, followed by at least one non-quote character
and a closing quote; returns the capture group. -/
def tryTestIdAt (cs : List Char) : Option (List Char) :=
  let pat := ("data-testid=\"").toList
  if pat.isPrefixOf cs then
    let rest := cs.drop pat.length
    let cap := rest.takeWhile (fun c => !(c = '"'))
    if cap.length ≥ 1 ∧ cap.length < rest.length then some cap else none
  else none

/-- Scan for the first position where `tryTestIdAt` succeeds, mirroring the
regex engine's left-to-right search with backtracking over start positions. -/
def scanTestId : List Char → Option (List Char)
  | [] => none
  | c :: cs =>
    match tryTestIdAt (c :: cs) with
    | some cap => some cap
    | none => scanTestId cs

/-- `selector.match(/data-testid="([^"]+)"/)?.[1]`. -/
def extractTestId (selector : String) : Option String :=
  (scanTestId selector.toList).map String.mk

/-- `generateAttributeBasedFallbacks`: derive attribute-based alternatives from
an id fragment, class fragment or `[data-testid` fragment of the primary
selector (checked in that order by the if/else-if chain). -/
def generateAttributeBasedFallbacks (selector : String) : List String :=
  if jsIncludes selector "#" then
    let id := jsReplaceFirst selector "#" ""
    [ "[data-testid=\"" ++ id ++ "\"]"
    , "[id*=\"" ++ id ++ "\"]"
    , "[name=\"" ++ id ++ "\"]"
    , "[aria-label*=\"" ++ id ++ "\"]" ]
  else if jsIncludes selector "." then
    let className := jsReplaceFirst selector "." ""
    [ "[data-testid*=\"" ++ className ++ "\"]"
    , "[class*=\"" ++ className ++ "\"]"
    , "[aria-label*=\"" ++ className ++ "\"]" ]
  else if jsIncludes selector "[data-testid" then
    match extractTestId selector with
    | some testId =>
      [ "[aria-label*=\"" ++ testId ++ "\"]"
      , "[id*=\"" ++ testId ++ "\"]"
      , "[name*=\"" ++ testId ++ "\"]"
      , "[title*=\"" ++ testId ++ "\"]" ]
    | none => []
  else []

/-- `generateTextBasedFallbacks`: fixed text/role selectors per action kind. -/
def generateTextBasedFallbacks (_selector : String) (stepType : StepType) : List String :=
  match stepType with
  | .click =>
    [ "button:has-text(\"Submit\")"
    , "button:has-text(\"Save\")"
    , "button:has-text(\"Continue\")"
    , "a:has-text(\"Click\")"
    , "[role=\"button\"]" ]
  | .fill =>
    [ "input[type=\"text\"]"
    , "input[type=\"email\"]"
    , "input[type=\"password\"]"
    , "textarea"
    , "[role=\"textbox\"]" ]
  | .select =>
    [ "select"
    , "[role=\"combobox\"]"
    , "[role=\"listbox\"]" ]
  | _ => []

/-- `selector.split(' ')[0] || selector`: the leading space-free token, falling
back to the whole selector when that token is empty. -/
def firstToken (selector : String) : String :=
  let t := String.mk (selector.toList.takeWhile (fun c => !(c = ' ')))
  if t = "" then selector else t

/-- `generatePositionalFallbacks`: position-relative variants of the leading
token of the primary selector. -/
def generatePositionalFallbacks (selector : String) : List String :=
  let baseSelector := firstToken selector
  [ baseSelector ++ ":first-child"
  , baseSelector ++ ":last-child"
  , baseSelector ++ ":nth-child(1)"
  , baseSelector ++ ":nth-child(2)"
  , "form " ++ baseSelector
  , "div " ++ baseSelector
  , "main " ++ baseSelector ]

/-- `generateSemanticFallbacks`: ARIA-role selectors per action kind. -/
def generateSemanticFallbacks (_selector : String) (stepType : StepType) : List String :=
  match stepType with
  | .click =>
    [ "[role=\"button\"]"
    , "[role=\"link\"]"
    , "[role=\"menuitem\"]"
    , "[role=\"tab\"]" ]
  | .fill =>
    [ "[role=\"textbox\"]"
    , "[role=\"searchbox\"]"
    , "[aria-label*=\"input\"]"
    , "[aria-label*=\"field\"]" ]
  | .assertion =>
    [ "[role=\"heading\"]"
    , "[role=\"status\"]"
    , "[role=\"alert\"]"
    , "[aria-live]" ]
  | _ => []

/-- `generateVisualFallbacks`: fixed visibility-predicate placeholder list. -/
def generateVisualFallbacks (_selector : String) : List String :=
  [ "[style*=\"visible\"]"
  , "[style*=\"display: block\"]"
  , ":visible" ]

/-- `applyStrategy`: dispatch one healing strategy. -/
def applyStrategy (strategy : HealingStrategy) (selector : String) (stepType : StepType) :
    List String :=
  match strategy with
  | .attribute_matching => generateAttributeBasedFallbacks selector
  | .text_content_matching => generateTextBasedFallbacks selector stepType
  | .positional_matching => generatePositionalFallbacks selector
  | .semantic_similarity => generateSemanticFallbacks selector stepType
  | .visual_ai_matching => generateVisualFallbacks selector

/-- `generateFallbackSelectors`: push each enabled strategy's results in
iteration order, then `[...new Set(fallbacks)]`. -/
def generateFallbackSelectors (primarySelector : String) (stepType : StepType)
    (enabledStrategies : List HealingStrategy) : List String :=
  jsSetDedup
    (enabledStrategies.foldl
      (fun acc strategy => acc ++ applyStrategy strategy primarySelector stepType) [])

/-! ## Runtime healing resolution (`validateSelector` / `findBestFallback` / `healStep`)

The live document is abstracted by the outcome function
`resolves : String → Bool`, the result of `validateSelector` (which internally
catches every failure and returns a boolean, so it never throws). -/

/-- The result record of `healStep`.  Confidence values are embedded in `ℚ`
(`1.0`, the fallback constant `0.8`, `0.0` are all exactly representable). -/
structure HealResult where
  healed : Bool
  newSelector : Option String
  confidence : ℚ
deriving DecidableEq, Repr

/-- `validateSelector(selector, page)`: whether the locator resolves within the
per-attempt timeout, as an abstract boolean outcome. -/
def validateSelector (resolves : String → Bool) (selector : String) : Bool :=
  resolves selector

/-- `findBestFallback`: first selector in list order that validates. -/
def findBestFallback (resolves : String → Bool) : List String → Option String
  | [] => none
  | s :: rest =>
    if validateSelector resolves s then some s else findBestFallback resolves rest

/-- Instrumentation of `findBestFallback`'s control flow: the selectors passed
to `validateSelector`, in probing order. -/
def fallbackProbes (resolves : String → Bool) : List String → List String
  | [] => []
  | s :: rest =>
    if validateSelector resolves s then [s] else s :: fallbackProbes resolves rest

/-- `healStep`: try the original selector first, then the fallbacks via
`findBestFallback`; confidence 1.0 / 0.8 / 0.0 as in the source. -/
def healStep (resolves : String → Bool) (originalSelector : String)
    (fallbackSelectors : List String) : HealResult :=
  if validateSelector resolves originalSelector then
    { healed := false, newSelector := none, confidence := 1 }
  else
    match findBestFallback resolves fallbackSelectors with
    | some workingFallback =>
      { healed := true, newSelector := some workingFallback, confidence := 0.8 }
    | none => { healed := false, newSelector := none, confidence := 0 }

/-- Instrumentation of `healStep`'s control flow: every selector probed against
the live document, in order (the original first, then fallbacks). -/
def healStepProbes (resolves : String → Bool) (originalSelector : String)
    (fallbackSelectors : List String) : List String :=
  if validateSelector resolves originalSelector then [originalSelector]
  else originalSelector :: fallbackProbes resolves fallbackSelectors


/-! ## Code generator (`PlaywrightCodeGenerator`) -/

/-- `JSON.stringify` escaping of one character: quote and backslash get a
backslash escape, control characters get their short escape or `\u00XX`, and
everything else stands for itself. -/
def jsonEscapeChar (c : Char) : String :=
  if c = '"' then "\\\""
  else if c = '\\' then "\\\\"
  else
    let k := c.toNat
    if 32 ≤ k then String.mk [c]
    else if k = 8 then "\\b"
    else if k = 12 then "\\f"
    else if k = 10 then "\\n"
    else if k = 13 then "\\r"
    else if k = 9 then "\\t"
    else
      let hi := k / 16
      let lo := k % 16
      String.mk ['\\', 'u', '0', '0',
        Char.ofNat (if hi < 10 then 48 + hi else 87 + hi),
        Char.ofNat (if lo < 10 then 48 + lo else 87 + lo)]

/-- `JSON.stringify` of a string. -/
def jsonQuote (s : String) : String :=
  "\"" ++ String.join (s.toList.map jsonEscapeChar) ++ "\""

/-- `JSON.stringify` of a string array (no added whitespace). -/
def jsonStringifyStrList (l : List String) : String :=
  "[" ++ String.intercalate "," (l.map jsonQuote) ++ "]"

/-- `generateImports`. -/
def generateImports : String :=
  "import \x7b test, expect, Page \x7d from '@playwright/test';"

/-- `generateStepCode`: one rendering rule per action kind.  The `||` defaults
follow JavaScript truthiness (`jsOrStr` / `jsOrNat`); the fallback-selector
array is rendered through `JSON.stringify(step.fallbackSelectors || [])`. -/
def generateStepCode (step : TestStep) : String :=
  let indent := "  "
  match step.type with
  | StepType.navigate =>
    indent ++ "// " ++ step.description ++ "\n" ++ indent
      ++ "await page.goto('"
      ++ jsOrStr (step.actionParams.bind (fun p => p.url)) step.selector ++ "');"
  | StepType.click =>
    indent ++ "// " ++ step.description ++ "\n" ++ indent
      ++ "await findElementWithHealing(page, '" ++ step.selector ++ "', "
      ++ jsonStringifyStrList (step.fallbackSelectors.getD []) ++ ").click();"
  | StepType.fill =>
    indent ++ "// " ++ step.description ++ "\n" ++ indent
      ++ "await findElementWithHealing(page, '" ++ step.selector ++ "', "
      ++ jsonStringifyStrList (step.fallbackSelectors.getD []) ++ ").fill('"
      ++ jsOrStr (step.actionParams.bind (fun p => p.value)) "" ++ "');"
  | StepType.select =>
    indent ++ "// " ++ step.description ++ "\n" ++ indent
      ++ "await findElementWithHealing(page, '" ++ step.selector ++ "', "
      ++ jsonStringifyStrList (step.fallbackSelectors.getD []) ++ ").selectOption('"
      ++ jsOrStr (step.actionParams.bind (fun p => p.value)) "" ++ "');"
  | StepType.wait =>
    indent ++ "// " ++ step.description ++ "\n" ++ indent
      ++ "await smartWait(page, '"
      ++ jsOrStr (step.actionParams.bind (fun p => p.condition)) "networkidle" ++ "', "
      ++ toString (jsOrNat (step.actionParams.bind (fun p => p.timeout)) 5000) ++ ");"
  | StepType.assertion =>
    indent ++ "// " ++ step.description ++ "\n" ++ indent
      ++ "await expect(findElementWithHealing(page, '" ++ step.selector ++ "', "
      ++ jsonStringifyStrList (step.fallbackSelectors.getD []) ++ ")).toContainText('"
      ++ jsOrStr (step.actionParams.bind (fun p => p.expectedText)) "" ++ "');"
  | StepType.screenshot =>
    indent ++ "// " ++ step.description ++ "\n" ++ indent
      ++ "await page.screenshot(\x7b path: 'test-results/"
      ++ jsOrStr (step.actionParams.bind (fun p => p.filename)) "screenshot"
      ++ ".png', fullPage: true \x7d);"

/-- `generateTestFunction`: test wrapper around the per-step code joined with
newlines. -/
def generateTestFunction (session : TestSession) : String :=
  "test('" ++ session.testName ++ "', async (\x7b page \x7d) => \x7b\n"
  ++ String.intercalate "\n" (session.steps.map generateStepCode)
  ++ "\n\x7d);"

/-- `generateHelperFunctions`: the fixed self-healing helper text emitted
into every generated script. -/
def generateHelperFunctions : String :=
  "// Self-healing helper functions\n"
  ++ "async function findElementWithHealing(page: Page, selector: string, fallbackSelectors: string[] = []): Promise<any> \x7b\n"
  ++ "  try \x7b\n"
  ++ "    const element = page.locator(selector);\n"
  ++ "    await element.waitFor(\x7b timeout: 5000 \x7d);\n"
  ++ "    return element;\n"
  ++ "  \x7d catch (error) \x7b\n"
  ++ "    console.warn(`Primary selector failed: $\x7bselector\x7d`);\n"
  ++ "    \n"
  ++ "    for (const fallback of fallbackSelectors) \x7b\n"
  ++ "      try \x7b\n"
  ++ "        console.log(`Trying fallback selector: $\x7bfallback\x7d`);\n"
  ++ "        const element = page.locator(fallback);\n"
  ++ "        await element.waitFor(\x7b timeout: 5000 \x7d);\n"
  ++ "        return element;\n"
  ++ "      \x7d catch (fallbackError) \x7b\n"
  ++ "        console.warn(`Fallback selector failed: $\x7bfallback\x7d`);\n"
  ++ "      \x7d\n"
  ++ "    \x7d\n"
  ++ "    \n"
  ++ "    throw new Error(`All selectors failed for: $\x7bselector\x7d`);\n"
  ++ "  \x7d\n"
  ++ "\x7d\n"
  ++ "\n"
  ++ "async function smartWait(page: Page, condition: string, timeout: number = 5000): Promise<void> \x7b\n"
  ++ "  try \x7b\n"
  ++ "    switch (condition) \x7b\n"
  ++ "      case 'networkidle':\n"
  ++ "        await page.waitForLoadState('networkidle', \x7b timeout \x7d);\n"
  ++ "        break;\n"
  ++ "      case 'domcontentloaded':\n"
  ++ "        await page.waitForLoadState('domcontentloaded', \x7b timeout \x7d);\n"
  ++ "        break;\n"
  ++ "      case 'load':\n"
  ++ "        await page.waitForLoadState('load', \x7b timeout \x7d);\n"
  ++ "        break;\n"
  ++ "      default:\n"
  ++ "        await page.waitForTimeout(timeout);\n"
  ++ "    \x7d\n"
  ++ "  \x7d catch (error) \x7b\n"
  ++ "    console.warn(`Wait condition '$\x7bcondition\x7d' timed out, continuing...`);\n"
  ++ "  \x7d\n"
  ++ "\x7d"

/-- `generatePlaywrightTest`: imports, test function, helper functions. -/
def generatePlaywrightTest (session : TestSession) : String :=
  generateImports ++ "\n\n" ++ generateTestFunction session ++ "\n\n"
    ++ generateHelperFunctions

/-! ## Recording session store (`server/src/services/SessionManager.ts`)

State is passed explicitly: the in-memory `Map` of sessions, the durable
mirror (the materialized records the `DatabaseService` holds), and the
per-session `isRecording` browser flags.  `new Date().toISOString()` is an
explicit `now` argument.  A thrown `Error` becomes `Except.error`; a throw
aborts the call with no tracked state change. -/

/-- `Map.get` over an insertion-ordered association list. -/
def alistGet {α : Type} (l : List (String × α)) (k : String) : Option α :=
  match l with
  | [] => none
  | p :: rest => if p.1 = k then some p.2 else alistGet rest k

/-- `Map.set`: replace in place if the key exists, else append. -/
def alistSet {α : Type} (l : List (String × α)) (k : String) (v : α) :
    List (String × α) :=
  match l with
  | [] => [(k, v)]
  | p :: rest => if p.1 = k then (k, v) :: rest else p :: alistSet rest k v

/-- The `SessionManager`+`DatabaseService` state. -/
structure ManagerState where
  activeSessions : List (String × TestSession)
  dbSessions : List (String × TestSession)
  browserRecording : List (String × Bool)
deriving DecidableEq, Repr

/-- `DatabaseService.updateSession` restricted to the status/timestamp updates
the lifecycle operations issue. -/
def dbUpdateSessionStatus (db : List (String × TestSession)) (sessionId : String)
    (status : SessionStatus) (now : String) : List (String × TestSession) :=
  db.map (fun p =>
    if p.1 = sessionId then (p.1, { p.2 with status := status, updatedAt := now }) else p)

/-- `SessionManager.getSession` (synchronous): memory first; on a miss it fires
a detached (`.then`-chained, not awaited) hydration from the durable store and
returns `undefined` immediately.  The detached hydration is modelled as having
completed in the returned state — the most favourable reading for the code. -/
def getSession (st : ManagerState) (sessionId : String) :
    Option TestSession × ManagerState :=
  match alistGet st.activeSessions sessionId with
  | some s => (some s, st)
  | none =>
    match alistGet st.dbSessions sessionId with
    | some s =>
      (none, { st with activeSessions := alistSet st.activeSessions sessionId s })
    | none => (none, st)

/-- `SessionManager.getSessionAsync`: memory first, then an awaited durable
lookup that populates memory before returning. -/
def getSessionAsync (st : ManagerState) (sessionId : String) :
    Option TestSession × ManagerState :=
  match alistGet st.activeSessions sessionId with
  | some s => (some s, st)
  | none =>
    match alistGet st.dbSessions sessionId with
    | some s =>
      (some s, { st with activeSessions := alistSet st.activeSessions sessionId s })
    | none => (none, st)

/-- A `Partial<TestStep>` update payload (fields the routes may send). -/
structure StepUpdate where
  selector : Option String := none
  actionParams : Option ActionParams := none
  description : Option String := none
  fallbackSelectors : Option (List String) := none
  screenshot : Option String := none
deriving DecidableEq, Repr

/-- The object spread `{ ...step, ...updates }`: fields present in
`updates` win, everything else is kept — including `fallbackSelectors`. -/
def spreadStepUpdate (s : TestStep) (u : StepUpdate) : TestStep :=
  { s with
    selector := u.selector.getD s.selector,
    actionParams := match u.actionParams with | some p => some p | none => s.actionParams,
    description := u.description.getD s.description,
    fallbackSelectors :=
      match u.fallbackSelectors with | some f => some f | none => s.fallbackSelectors,
    screenshot := match u.screenshot with | some c => some c | none => s.screenshot }

/-- `findIndex` + in-place assignment on the step list: update the first step
with the given id, returning the new list and the updated step. -/
def updateStepList (steps : List TestStep) (stepId : String) (u : StepUpdate) :
    Option (List TestStep × TestStep) :=
  match steps with
  | [] => none
  | s :: rest =>
    if s.id = stepId then some (spreadStepUpdate s u :: rest, spreadStepUpdate s u)
    else
      match updateStepList rest stepId u with
      | some (l, t) => some (s :: l, t)
      | none => none

/-- Projection of a step to what the durable step-row schema retains on the
write path: only the `value` action param survives
(`step.actionParams?.value || null`) and no screenshot column is written. -/
def dbProjectStep (s : TestStep) : TestStep :=
  { s with
    actionParams :=
      match s.actionParams with
      | some p =>
        match p.value with
        | some v => if v = "" then none else some { value := some v }
        | none => none
      | none => none,
    screenshot := none }

/-- `DatabaseService.updateStep` on the materialized durable records: the step
row with the given id receives the update, projected to the durable schema
(the per-column truthiness guards collapse to this on the payloads the
routes send). -/
def dbUpdateStep (db : List (String × TestSession)) (stepId : String)
    (u : StepUpdate) : List (String × TestSession) :=
  db.map (fun p => (p.1,
    { p.2 with steps := p.2.steps.map (fun s =>
        if s.id = stepId then dbProjectStep (spreadStepUpdate s u) else s) }))

/-- `SessionManager.updateStep`: look the session up, find the step by id,
apply the object spread (note: no fallback recomputation happens, whatever the
update contains), bump `updatedAt`, store the session back and mirror the step
update durably; returns the updated step. -/
def updateStep (st : ManagerState) (sessionId stepId : String) (u : StepUpdate)
    (now : String) : Except String (ManagerState × TestStep) :=
  match getSession st sessionId with
  | (none, _) => Except.error ("Session not found: " ++ sessionId)
  | (some session, st1) =>
    match updateStepList session.steps stepId u with
    | none => Except.error ("Step not found: " ++ stepId)
    | some (steps1, updatedStep) =>
      let session1 := { session with steps := steps1, updatedAt := now }
      Except.ok
        ({ st1 with
            activeSessions := alistSet st1.activeSessions sessionId session1,
            dbSessions := dbUpdateStep st1.dbSessions stepId u },
         updatedStep)

/-- `SessionManager.pauseRecording`: only session existence is checked; the
status is set to `paused` unconditionally, `updatedAt` is refreshed, the
browser flag is cleared and the status change is mirrored durably. -/
def pauseRecording (st : ManagerState) (sessionId now : String) :
    Except String ManagerState :=
  match getSession st sessionId with
  | (none, _) => Except.error ("Session not found: " ++ sessionId)
  | (some session, st1) =>
    let session1 := { session with status := SessionStatus.paused, updatedAt := now }
    Except.ok
      { st1 with
          activeSessions := alistSet st1.activeSessions sessionId session1,
          dbSessions := dbUpdateSessionStatus st1.dbSessions sessionId SessionStatus.paused now,
          browserRecording := st1.browserRecording.map
            (fun p => if p.1 = sessionId then (p.1, false) else p) }

/-- `SessionManager.stopRecording`: same shape as `pauseRecording` with status
`stopped`; no check that the session is currently recording or paused. -/
def stopRecording (st : ManagerState) (sessionId now : String) :
    Except String ManagerState :=
  match getSession st sessionId with
  | (none, _) => Except.error ("Session not found: " ++ sessionId)
  | (some session, st1) =>
    let session1 := { session with status := SessionStatus.stopped, updatedAt := now }
    Except.ok
      { st1 with
          activeSessions := alistSet st1.activeSessions sessionId session1,
          dbSessions := dbUpdateSessionStatus st1.dbSessions sessionId SessionStatus.stopped now,
          browserRecording := st1.browserRecording.map
            (fun p => if p.1 = sessionId then (p.1, false) else p) }

/-! ## Concurrent `addStep` model

`addStep` under the JavaScript event loop decomposes into two atomic segments
per call: (1) session lookup + fallback computation (read-only — the awaited
`generateFallbackSelectors` only reads the target session's configured
strategies, which no concurrent `addStep` mutates), and (2) the synchronous
run-to-completion block that assigns the fresh id and timestamp and pushes the
step onto the session's array.  A schedule is an arbitrary interleaving of
callers' segments; the store is a total map from session id to step list. -/

/-- The caller-supplied part of an `addStep` call. -/
structure StepDraft where
  type : StepType
  selector : String
  actionParams : Option ActionParams := none
  description : String
deriving DecidableEq, Repr

/-- One in-flight `addStep` call: target session, draft, and the fresh id and
timestamp its append segment will use. -/
structure AddCall where
  sessionId : String
  draft : StepDraft
  newId : String
  now : String
deriving DecidableEq, Repr

/-- Progress of one call: before segment 1, between segments, finished. -/
inductive CallPhase
  | ready
  | computed
  | finished
deriving DecidableEq, Repr

/-- The step `addStep` materializes: draft fields plus fresh id, timestamp and
the fallbacks computed by the healing engine from the owning session's
configured strategies. -/
def materializeStep (c : AddCall) (strategies : List HealingStrategy) : TestStep :=
  { id := c.newId,
    type := c.draft.type,
    selector := c.draft.selector,
    actionParams := c.draft.actionParams,
    description := c.draft.description,
    timestamp := c.now,
    fallbackSelectors :=
      some (generateFallbackSelectors c.draft.selector c.draft.type strategies),
    screenshot := none }

/-- Interleaving state: per-call phase, per-session step lists, and the log of
calls in the order their append segments were accepted. -/
structure ConcState (n : Nat) where
  phases : Fin n → CallPhase
  store : String → List TestStep
  acceptedLog : List (Fin n)

/-- Execute one scheduled segment of call `i` (run-to-completion: each segment
is atomic on the event loop). -/
def runCall {n : Nat} (settingsOf : String → List HealingStrategy)
    (calls : Fin n → AddCall) (s : ConcState n) (i : Fin n) : ConcState n :=
  match s.phases i with
  | CallPhase.ready =>
    { s with phases := fun j => if j = i then CallPhase.computed else s.phases j }
  | CallPhase.computed =>
    { phases := fun j => if j = i then CallPhase.finished else s.phases j,
      store := fun sid =>
        if sid = (calls i).sessionId then
          s.store sid ++ [materializeStep (calls i) (settingsOf sid)]
        else s.store sid,
      acceptedLog := s.acceptedLog ++ [i] }
  | CallPhase.finished => s

/-- Execute a whole schedule (list of scheduled call indices). -/
def runSched {n : Nat} (settingsOf : String → List HealingStrategy)
    (calls : Fin n → AddCall) : ConcState n → List (Fin n) → ConcState n
  | s, [] => s
  | s, i :: rest => runSched settingsOf calls (runCall settingsOf calls s i) rest

/-- Initial state: every call ready, no accepted appends. -/
def initConcState {n : Nat} (init : String → List TestStep) : ConcState n :=
  { phases := fun _ => CallPhase.ready, store := init, acceptedLog := [] }

/-- The steps a given session receives from an acceptance log, in acceptance
order. -/
def logSteps {n : Nat} (settingsOf : String → List HealingStrategy)
    (calls : Fin n → AddCall) (log : List (Fin n)) (sid : String) : List TestStep :=
  (log.filter (fun i => (calls i).sessionId = sid)).map
    (fun i => materializeStep (calls i) (settingsOf sid))

/-- Invariant tying a state to the acceptance log: each session's list is its
initial list plus exactly its accepted steps in acceptance order; no call is
accepted twice; a call is in the log exactly when it has finished. -/
def ConcInv {n : Nat} (settingsOf : String → List HealingStrategy)
    (calls : Fin n → AddCall) (init : String → List TestStep) (s : ConcState n) : Prop :=
  (∀ sid, s.store sid = init sid ++ logSteps settingsOf calls s.acceptedLog sid)
  ∧ s.acceptedLog.Nodup
  ∧ (∀ i, i ∈ s.acceptedLog ↔ s.phases i = CallPhase.finished)

/-! ## Concrete fixtures used by the closed claim theorems -/

/-- Outcome function for a document where nothing resolves. -/
def resolvesNone : String → Bool := fun _ => false

/-- Outcome function where exactly the primary `#submit-button` resolves. -/
def resolvesPrimary : String → Bool := fun s => s = "#submit-button"

/-- Outcome function where exactly `.fb-2` resolves. -/
def resolvesFb2 : String → Bool := fun s => s = ".fb-2"

/-- Fallbacks `addStep` computes for `#submit-button` + click with the
attribute and text strategies. -/
def fallbacksSubmit : List String :=
  generateFallbackSelectors "#submit-button" StepType.click
    [HealingStrategy.attribute_matching, HealingStrategy.text_content_matching]

/-- Session settings enabling the attribute and text strategies (other fields
as in `createSession`'s defaults). -/
def settingsAttrText : SessionSettings :=
  { healingStrategies :=
      [HealingStrategy.attribute_matching, HealingStrategy.text_content_matching],
    confidenceThreshold := 0.8, maxRetryAttempts := 3, fallbackTimeout := 5000,
    screenshotMode := "on-failure", waitTimeout := 30000,
    assertionStrictness := "loose" }

/-- Default session metadata from `createSession`. -/
def metadataDefault : SessionMetadata :=
  { viewportWidth := 1920, viewportHeight := 1080,
    userAgent := "Mozilla/5.0 (Windows NT 10.0; Win64; x64) AppleWebKit/537.36",
    browser := "chromium" }

/-- A recorded click step on `#submit-button` with its computed fallbacks. -/
def stepSubmit : TestStep :=
  { id := "step-1", type := StepType.click, selector := "#submit-button",
    actionParams := none, description := "Click on #submit-button",
    timestamp := "2026-01-01T00:00:00.000Z",
    fallbackSelectors := some fallbacksSubmit, screenshot := none }

/-- A recording session holding `stepSubmit`. -/
def sessionLogin : TestSession :=
  { id := "sess-1", testName := "Login Flow", targetUrl := "https://example.com",
    steps := [stepSubmit], status := SessionStatus.recording,
    createdAt := "2026-01-01T00:00:00.000Z", updatedAt := "2026-01-01T00:00:00.000Z",
    settings := settingsAttrText, metadata := metadataDefault }

/-- Manager state with `sessionLogin` live in memory and mirrored durably. -/
def stateWithLogin : ManagerState :=
  { activeSessions := [("sess-1", sessionLogin)],
    dbSessions := [("sess-1", sessionLogin)],
    browserRecording := [("sess-1", true)] }

/-- The update payload of the scenario: change the primary locator to
`.alt-button`. -/
def updSelectorAlt : StepUpdate := { selector := some ".alt-button" }

/-- A session that exists only durably (cold miss). -/
def sessionDurable : TestSession :=
  { id := "sess-2", testName := "Cold", targetUrl := "https://example.com",
    steps := [], status := SessionStatus.created,
    createdAt := "2026-01-01T00:00:00.000Z", updatedAt := "2026-01-01T00:00:00.000Z",
    settings := settingsAttrText, metadata := metadataDefault }

/-- Manager state where `sess-2` is durable but not in memory. -/
def stateColdMiss : ManagerState :=
  { activeSessions := [], dbSessions := [("sess-2", sessionDurable)],
    browserRecording := [] }

/-- `sessionLogin` after a pause (status `paused`). -/
def sessionPaused : TestSession :=
  { sessionLogin with
    status := SessionStatus.paused,
    updatedAt := "2026-01-01T00:02:00.000Z" }

/-- Manager state holding the already-paused session. -/
def statePaused : ManagerState :=
  { activeSessions := [("sess-1", sessionPaused)],
    dbSessions := [("sess-1", sessionPaused)],
    browserRecording := [("sess-1", false)] }

/-- `sessionLogin` after a stop (status `stopped`). -/
def sessionStopped : TestSession :=
  { sessionLogin with
    status := SessionStatus.stopped,
    updatedAt := "2026-01-01T00:05:00.000Z" }

/-- Manager state holding the already-stopped session. -/
def stateStopped : ManagerState :=
  { activeSessions := [("sess-1", sessionStopped)],
    dbSessions := [("sess-1", sessionStopped)],
    browserRecording := [("sess-1", false)] }

/-- Constant per-session strategy configuration for the concurrency witness. -/
def settingsOfConst : String → List HealingStrategy :=
  fun _ => [HealingStrategy.positional_matching]

/-- First concurrent `addStep` caller (API path). -/
def draftA : StepDraft :=
  { type := StepType.click, selector := "#a", actionParams := none,
    description := "A" }

def callA : AddCall :=
  { sessionId := "s", draft := draftA, newId := "id-a",
    now := "2026-01-01T00:00:01.000Z" }

/-- Second concurrent `addStep` caller (driver-event path). -/
def draftB : StepDraft :=
  { type := StepType.fill, selector := "#b",
    actionParams := some { value := some "hello" }, description := "B" }

def callB : AddCall :=
  { sessionId := "s", draft := draftB, newId := "id-b",
    now := "2026-01-01T00:00:02.000Z" }

/-- The two concurrent calls, indexed. -/
def callsAB : Fin 2 → AddCall := fun i => if i.val = 0 then callA else callB

/-- A schedule where acceptance order (B then A) differs from issue order. -/
def schedAB : List (Fin 2) := [0, 1, 1, 0]

/-- Empty initial store. -/
def emptyStore : String → List TestStep := fun _ => []

/-! ## Lemmas about the deduplication and resolution helpers -/

lemma jsSetFold_sublist (seen : List String) (l : List String) :
    List.Sublist (jsSetFold seen l) l := by
  induction l generalizing seen with
  | nil => simp [jsSetFold]
  | cons x xs ih =>
    rw [jsSetFold]
    by_cases h : x ∈ seen
    · rw [if_pos h]
      exact (ih seen).trans (List.sublist_cons_self x xs)
    · rw [if_neg h]
      exact (ih (x :: seen)).cons₂ x

lemma mem_jsSetFold (seen : List String) (l : List String) (y : String) :
    y ∈ jsSetFold seen l ↔ y ∈ l ∧ y ∉ seen := by
  induction l generalizing seen with
  | nil => simp [jsSetFold]
  | cons x xs ih =>
    rw [jsSetFold]
    by_cases h : x ∈ seen
    · rw [if_pos h, ih]
      simp only [List.mem_cons]
      constructor
      · rintro ⟨hy, hn⟩
        exact ⟨Or.inr hy, hn⟩
      · rintro ⟨hy | hy, hn⟩
        · exact absurd (hy ▸ h) hn
        · exact ⟨hy, hn⟩
    · rw [if_neg h]
      simp only [List.mem_cons, ih, not_or]
      constructor
      · rintro (rfl | ⟨hy, _, hn⟩)
        · exact ⟨Or.inl rfl, h⟩
        · exact ⟨Or.inr hy, hn⟩
      · rintro ⟨rfl | hy, hn⟩
        · exact Or.inl rfl
        · by_cases hyx : y = x
          · exact Or.inl hyx
          · exact Or.inr ⟨hy, hyx, hn⟩

lemma jsSetFold_nodup (seen : List String) (l : List String) :
    (jsSetFold seen l).Nodup := by
  induction l generalizing seen with
  | nil => simp [jsSetFold]
  | cons x xs ih =>
    rw [jsSetFold]
    by_cases h : x ∈ seen
    · rw [if_pos h]; exact ih seen
    · rw [if_neg h]
      refine List.nodup_cons.mpr ⟨?_, ih (x :: seen)⟩
      intro hx
      exact ((mem_jsSetFold _ _ _).mp hx).2 (List.mem_cons_self x seen)

lemma jsSetFold_eq_dedupFirstOccurrence (l : List String) (seen : List String) :
    jsSetFold seen l = dedupFirstOccurrence (l.filter (fun y => decide (y ∉ seen))) := by
  induction l generalizing seen with
  | nil => simp [jsSetFold, dedupFirstOccurrence]
  | cons x xs ih =>
    rw [jsSetFold]
    by_cases h : x ∈ seen
    · rw [if_pos h]
      have hfilter : List.filter (fun y => decide (y ∉ seen)) (x :: xs)
          = List.filter (fun y => decide (y ∉ seen)) xs := by
        simp [List.filter_cons, h]
      rw [hfilter, ih seen]
    · rw [if_neg h]
      have hfilter : List.filter (fun y => decide (y ∉ seen)) (x :: xs)
          = x :: List.filter (fun y => decide (y ∉ seen)) xs := by
        simp [List.filter_cons, h]
      rw [hfilter, dedupFirstOccurrence, List.filter_filter, ih (x :: seen)]
      congr 1
      congr 1
      apply List.filter_congr
      intro y _
      exact (decide_eq_decide.mpr
          (show y ∉ x :: seen ↔ ¬y = x ∧ y ∉ seen by simp [List.mem_cons, not_or])).trans
        (by rw [Bool.decide_and])

lemma jsSetDedup_eq_dedupFirstOccurrence (l : List String) :
    jsSetDedup l = dedupFirstOccurrence l := by
  rw [jsSetDedup, jsSetFold_eq_dedupFirstOccurrence]
  congr 1
  exact List.filter_eq_self.mpr (fun a _ => by simp)

lemma foldl_append_eq_flatten {α : Type} (f : α → List String) :
    ∀ (l : List α) (acc : List String),
      l.foldl (fun a st => a ++ f st) acc = acc ++ (l.map f).flatten
  | [], acc => by simp
  | x :: xs, acc => by
    simp only [List.foldl_cons, List.map_cons, List.flatten_cons]
    rw [foldl_append_eq_flatten f xs (acc ++ f x), List.append_assoc]

lemma findBestFallback_some_spec (resolves : String → Bool) :
    ∀ (l : List String) (s : String), findBestFallback resolves l = some s →
      resolves s = true ∧
      ∃ pre post, l = pre ++ s :: post ∧ (∀ x ∈ pre, resolves x = false) ∧
        fallbackProbes resolves l = pre ++ [s]
  | [], s => by simp [findBestFallback]
  | a :: rest, s => by
    rw [findBestFallback]
    by_cases h : validateSelector resolves a
    · rw [if_pos h]
      intro hs
      cases hs
      refine ⟨h, [], rest, rfl, by simp, ?_⟩
      rw [fallbackProbes, if_pos h]
      simp
    · rw [if_neg h]
      intro hs
      obtain ⟨hres, pre, post, hsplit, hpre, hprobes⟩ :=
        findBestFallback_some_spec resolves rest s hs
      refine ⟨hres, a :: pre, post, by rw [hsplit, List.cons_append], ?_, ?_⟩
      · intro x hx
        rcases List.mem_cons.mp hx with rfl | hx
        · exact Bool.eq_false_iff.mpr (fun hc => h (by rw [validateSelector, hc]))
        · exact hpre x hx
      · rw [fallbackProbes, if_neg h, hprobes, List.cons_append]

lemma findBestFallback_none_spec (resolves : String → Bool) :
    ∀ (l : List String), findBestFallback resolves l = none →
      (∀ x ∈ l, resolves x = false) ∧ fallbackProbes resolves l = l
  | [] => by simp [findBestFallback, fallbackProbes]
  | a :: rest => by
    rw [findBestFallback]
    by_cases h : validateSelector resolves a
    · rw [if_pos h]; intro hs; cases hs
    · rw [if_neg h]
      intro hs
      obtain ⟨hall, hprobes⟩ := findBestFallback_none_spec resolves rest hs
      refine ⟨?_, ?_⟩
      · intro x hx
        rcases List.mem_cons.mp hx with rfl | hx
        · exact Bool.eq_false_iff.mpr (fun hc => h (by rw [validateSelector, hc]))
        · exact hall x hx
      · rw [fallbackProbes, if_neg h, hprobes]

lemma generateFallbackSelectors_eq_dedup (ps : String) (t : StepType)
    (strats : List HealingStrategy) :
    generateFallbackSelectors ps t strats
      = jsSetDedup ((strats.map (fun st => applyStrategy st ps t)).flatten) := by
  rw [generateFallbackSelectors]
  congr 1
  simpa using foldl_append_eq_flatten (fun st => applyStrategy st ps t) strats []

/-! ## Claim theorems: healing engine -/

/-- Claim C5: `generateFallbackSelectors` returns exactly the concatenation, in
strategy order, of the per-strategy outputs, deduplicated stably with the first
occurrence of each locator kept (it equals the spec-modelled
`dedupFirstOccurrence` of the concatenation, is duplicate-free, is an
order-preserving sublist of the concatenation with the same members), and is
deterministic.  As a Lean function of its three arguments it performs no
document I/O by construction. -/
theorem generateFallbackSelectors_spec (ps : String) (t : StepType)
    (strats : List HealingStrategy) :
    generateFallbackSelectors ps t strats
        = dedupFirstOccurrence ((strats.map (fun st => applyStrategy st ps t)).flatten)
    ∧ (generateFallbackSelectors ps t strats).Nodup
    ∧ List.Sublist (generateFallbackSelectors ps t strats)
        ((strats.map (fun st => applyStrategy st ps t)).flatten)
    ∧ (∀ x, x ∈ generateFallbackSelectors ps t strats ↔
        x ∈ (strats.map (fun st => applyStrategy st ps t)).flatten)
    ∧ (∀ ps' t' strats', ps' = ps → t' = t → strats' = strats →
        generateFallbackSelectors ps' t' strats' = generateFallbackSelectors ps t strats) := by
  refine ⟨?_, ?_, ?_, ?_, ?_⟩
  · rw [generateFallbackSelectors_eq_dedup, jsSetDedup_eq_dedupFirstOccurrence]
  · rw [generateFallbackSelectors_eq_dedup, jsSetDedup]
    exact jsSetFold_nodup [] _
  · rw [generateFallbackSelectors_eq_dedup, jsSetDedup]
    exact jsSetFold_sublist [] _
  · intro x
    rw [generateFallbackSelectors_eq_dedup, jsSetDedup, mem_jsSetFold]
    simp
  · rintro ps' t' strats' rfl rfl rfl
    rfl

/-- Witness for C5 at the scenario input (`#submit-button`, click,
attribute + text strategies). -/
theorem generateFallbackSelectors_spec_witness :
    generateFallbackSelectors "#submit-button" StepType.click
        [HealingStrategy.attribute_matching, HealingStrategy.text_content_matching]
      = dedupFirstOccurrence
          (([HealingStrategy.attribute_matching, HealingStrategy.text_content_matching].map
            (fun st => applyStrategy st "#submit-button" StepType.click)).flatten)
    ∧ (generateFallbackSelectors "#submit-button" StepType.click
        [HealingStrategy.attribute_matching, HealingStrategy.text_content_matching]).Nodup
    ∧ generateFallbackSelectors "#submit-button" StepType.click
        [HealingStrategy.attribute_matching, HealingStrategy.text_content_matching]
      = generateFallbackSelectors "#submit-button" StepType.click
        [HealingStrategy.attribute_matching, HealingStrategy.text_content_matching] :=
  ⟨(generateFallbackSelectors_spec "#submit-button" StepType.click
      [HealingStrategy.attribute_matching, HealingStrategy.text_content_matching]).1,
   (generateFallbackSelectors_spec "#submit-button" StepType.click
      [HealingStrategy.attribute_matching, HealingStrategy.text_content_matching]).2.1,
   (generateFallbackSelectors_spec "#submit-button" StepType.click
      [HealingStrategy.attribute_matching, HealingStrategy.text_content_matching]).2.2.2.2
      "#submit-button" StepType.click
      [HealingStrategy.attribute_matching, HealingStrategy.text_content_matching] rfl rfl rfl⟩

/-- Claim C6: the healing result never has `healed = true` when the primary
locator resolved; `confidence = 1` exactly when `healed = false` and the
primary resolved; a resolving fallback gives the fixed constant `0.8`; if
nothing resolves the result is `healed = false` with confidence `0`. -/
theorem healStep_confidence_spec (resolves : String → Bool) (ps : String)
    (fbs : List String) :
    (¬((healStep resolves ps fbs).healed = true ∧ resolves ps = true))
    ∧ ((healStep resolves ps fbs).confidence = 1 ↔
        ((healStep resolves ps fbs).healed = false ∧ resolves ps = true))
    ∧ (∀ s, resolves ps = false → findBestFallback resolves fbs = some s →
        healStep resolves ps fbs
          = { healed := true, newSelector := some s, confidence := 0.8 })
    ∧ (resolves ps = false → findBestFallback resolves fbs = none →
        healStep resolves ps fbs
          = { healed := false, newSelector := none, confidence := 0 }) := by
  cases hp : resolves ps with
  | true =>
    have hh : healStep resolves ps fbs
        = { healed := false, newSelector := none, confidence := 1 } := by
      rw [healStep, if_pos]
      rw [validateSelector, hp]
    refine ⟨?_, ?_, ?_, ?_⟩
    · rw [hh]; simp
    · rw [hh]; simp
    · intro s h0 _
      exact absurd h0 (by decide)
    · intro h0 _
      exact absurd h0 (by decide)
  | false =>
    cases hf : findBestFallback resolves fbs with
    | some w =>
      have hh : healStep resolves ps fbs
          = { healed := true, newSelector := some w, confidence := 0.8 } := by
        rw [healStep, if_neg (by rw [validateSelector, hp]; exact Bool.false_ne_true), hf]
      refine ⟨?_, ?_, ?_, ?_⟩
      · rw [hh]; simp
      · rw [hh]; norm_num
      · intro s _ hf2
        rw [hh, Option.some.inj hf2]
      · intro _ hf2
        exact Option.noConfusion hf2
    | none =>
      have hh : healStep resolves ps fbs
          = { healed := false, newSelector := none, confidence := 0 } := by
        rw [healStep, if_neg (by rw [validateSelector, hp]; exact Bool.false_ne_true), hf]
      refine ⟨?_, ?_, ?_, ?_⟩
      · rw [hh]; simp
      · rw [hh]; norm_num
      · intro s _ hf2
        exact Option.noConfusion hf2
      · intro _ _
        exact hh

/-- Witness for C6: a run where nothing resolves, a run healed by the second
fallback, and a run where the primary resolves. -/
theorem healStep_confidence_spec_witness :
    healStep resolvesNone "#submit-button" []
        = { healed := false, newSelector := none, confidence := 0 }
    ∧ healStep resolvesFb2 "#submit-button" [".fb-1", ".fb-2"]
        = { healed := true, newSelector := some ".fb-2", confidence := 0.8 }
    ∧ ¬((healStep resolvesPrimary "#submit-button" []).healed = true
        ∧ resolvesPrimary "#submit-button" = true) :=
  ⟨(healStep_confidence_spec resolvesNone "#submit-button" []).2.2.2 rfl rfl,
   (healStep_confidence_spec resolvesFb2 "#submit-button" [".fb-1", ".fb-2"]).2.2.1
      ".fb-2" rfl rfl,
   (healStep_confidence_spec resolvesPrimary "#submit-button" []).1⟩

/-- Claim C7: resolution probes the primary locator first; on primary success no
fallback is probed; on primary failure the fallbacks are probed in list order
and the reported locator is the earliest fallback that resolves, with no later
fallback probed after the success; on total failure every fallback was probed. -/
theorem healStep_resolution_order (resolves : String → Bool) (ps : String)
    (fbs : List String) :
    (healStepProbes resolves ps fbs).head? = some ps
    ∧ (resolves ps = true →
        healStep resolves ps fbs
            = { healed := false, newSelector := none, confidence := 1 }
        ∧ healStepProbes resolves ps fbs = [ps])
    ∧ (∀ s, resolves ps = false → findBestFallback resolves fbs = some s →
        resolves s = true
        ∧ (healStep resolves ps fbs).newSelector = some s
        ∧ ∃ pre post, fbs = pre ++ s :: post ∧ (∀ x ∈ pre, resolves x = false)
            ∧ healStepProbes resolves ps fbs = ps :: (pre ++ [s]))
    ∧ (resolves ps = false → findBestFallback resolves fbs = none →
        (∀ x ∈ fbs, resolves x = false)
        ∧ healStepProbes resolves ps fbs = ps :: fbs) := by
  refine ⟨?_, ?_, ?_, ?_⟩
  · rw [healStepProbes]
    by_cases hp : validateSelector resolves ps = true
    · rw [if_pos hp]; rfl
    · rw [if_neg hp]; rfl
  · intro hp
    constructor
    · rw [healStep, if_pos]; rw [validateSelector, hp]
    · rw [healStepProbes, if_pos]; rw [validateSelector, hp]
  · intro s hp hf
    obtain ⟨hres, pre, post, hsplit, hpre, hprobes⟩ :=
      findBestFallback_some_spec resolves fbs s hf
    refine ⟨hres, ?_, pre, post, hsplit, hpre, ?_⟩
    · rw [healStep, if_neg (by rw [validateSelector, hp]; exact Bool.false_ne_true), hf]
    · rw [healStepProbes, if_neg (by rw [validateSelector, hp]; exact Bool.false_ne_true),
        hprobes]
  · intro hp hf
    obtain ⟨hall, hprobes⟩ := findBestFallback_none_spec resolves fbs hf
    refine ⟨hall, ?_⟩
    rw [healStepProbes, if_neg (by rw [validateSelector, hp]; exact Bool.false_ne_true),
      hprobes]

/-- Witness for C7: probing starts at the primary; on primary success the probe
list is just the primary; the fallback reported on primary failure resolves and
is the one the result carries. -/
theorem healStep_resolution_order_witness :
    (healStepProbes resolvesFb2 "#submit-button" [".fb-1", ".fb-2"]).head?
        = some "#submit-button"
    ∧ (healStep resolvesPrimary "#submit-button" [".fb-1"]
          = { healed := false, newSelector := none, confidence := 1 }
       ∧ healStepProbes resolvesPrimary "#submit-button" [".fb-1"] = ["#submit-button"])
    ∧ resolvesFb2 ".fb-2" = true
    ∧ (healStep resolvesFb2 "#submit-button" [".fb-1", ".fb-2"]).newSelector
        = some ".fb-2" :=
  ⟨(healStep_resolution_order resolvesFb2 "#submit-button" [".fb-1", ".fb-2"]).1,
   (healStep_resolution_order resolvesPrimary "#submit-button" [".fb-1"]).2.1 rfl,
   ((healStep_resolution_order resolvesFb2 "#submit-button" [".fb-1", ".fb-2"]).2.2.1
      ".fb-2" rfl rfl).1,
   ((healStep_resolution_order resolvesFb2 "#submit-button" [".fb-1", ".fb-2"]).2.2.1
      ".fb-2" rfl rfl).2.1⟩

/-- Claim C10: a primary locator containing no id fragment, no class fragment
and no `[data-testid` fragment produces no attribute-based fallbacks, so with
only the attribute-matching strategy enabled `generateFallbackSelectors`
returns the empty list. -/
theorem attributeFallbacks_bare_selector_empty (selector : String) (stepType : StepType)
    (h1 : jsIncludes selector "#" = false) (h2 : jsIncludes selector "." = false)
    (h3 : jsIncludes selector "[data-testid" = false) :
    generateAttributeBasedFallbacks selector = []
    ∧ generateFallbackSelectors selector stepType [HealingStrategy.attribute_matching] = [] := by
  have hattr : generateAttributeBasedFallbacks selector = [] := by
    rw [generateAttributeBasedFallbacks]
    simp [h1, h2, h3]
  refine ⟨hattr, ?_⟩
  rw [generateFallbackSelectors]
  simp [applyStrategy, hattr, jsSetDedup, jsSetFold]

/-- Witness for C10 at the bare tag-name locator `button`. -/
theorem attributeFallbacks_bare_selector_empty_witness :
    jsIncludes "button" "#" = false
    ∧ jsIncludes "button" "." = false
    ∧ jsIncludes "button" "[data-testid" = false
    ∧ generateFallbackSelectors "button" StepType.click
        [HealingStrategy.attribute_matching] = [] :=
  ⟨by decide, by decide, by decide,
   (attributeFallbacks_bare_selector_empty "button" StepType.click
      (by decide) (by decide) (by decide)).2⟩

/-! ## Lemmas about the store and the concurrency model -/

lemma alistGet_alistSet_self {α : Type} (l : List (String × α)) (k : String) (v : α) :
    alistGet (alistSet l k v) k = some v := by
  induction l with
  | nil => simp [alistSet, alistGet]
  | cons p rest ih =>
    rw [alistSet]
    by_cases h : p.1 = k
    · rw [if_pos h, alistGet, if_pos rfl]
    · rw [if_neg h, alistGet, if_neg h]
      exact ih

lemma logSteps_append_one {n : Nat} (settingsOf : String → List HealingStrategy)
    (calls : Fin n → AddCall) (log : List (Fin n)) (i : Fin n) (sid : String) :
    logSteps settingsOf calls (log ++ [i]) sid
      = logSteps settingsOf calls log sid
        ++ (if (calls i).sessionId = sid
            then [materializeStep (calls i) (settingsOf sid)] else []) := by
  rw [logSteps, logSteps, List.filter_append, List.map_append]
  congr 1
  by_cases h : (calls i).sessionId = sid
  · simp [List.filter_cons, h]
  · simp [List.filter_cons, h]

lemma runCall_inv {n : Nat} (settingsOf : String → List HealingStrategy)
    (calls : Fin n → AddCall) (init : String → List TestStep) (s : ConcState n)
    (i : Fin n) (h : ConcInv settingsOf calls init s) :
    ConcInv settingsOf calls init (runCall settingsOf calls s i) := by
  obtain ⟨hstore, hnodup, hiff⟩ := h
  cases hp : s.phases i with
  | ready =>
    have hrun : runCall settingsOf calls s i
        = { s with phases := fun j => if j = i then CallPhase.computed else s.phases j } := by
      rw [runCall, hp]
    rw [ConcInv, hrun]
    refine ⟨hstore, hnodup, ?_⟩
    intro j
    show j ∈ s.acceptedLog
      ↔ (if j = i then CallPhase.computed else s.phases j) = CallPhase.finished
    by_cases hji : j = i
    · rw [if_pos hji, hji]
      constructor
      · intro hj
        exact absurd (hp.symm.trans ((hiff i).mp hj)) (by decide)
      · intro hj
        exact absurd hj (by decide)
    · rw [if_neg hji]
      exact hiff j
  | computed =>
    have hni : i ∉ s.acceptedLog := by
      intro hmem
      exact absurd (hp.symm.trans ((hiff i).mp hmem)) (by decide)
    have hrun : runCall settingsOf calls s i
        = { phases := fun j => if j = i then CallPhase.finished else s.phases j,
            store := fun sid =>
              if sid = (calls i).sessionId then
                s.store sid ++ [materializeStep (calls i) (settingsOf sid)]
              else s.store sid,
            acceptedLog := s.acceptedLog ++ [i] } := by
      rw [runCall, hp]
    rw [ConcInv, hrun]
    refine ⟨?_, ?_, ?_⟩
    · intro sid
      show (if sid = (calls i).sessionId then
              s.store sid ++ [materializeStep (calls i) (settingsOf sid)]
            else s.store sid)
        = init sid ++ logSteps settingsOf calls (s.acceptedLog ++ [i]) sid
      rw [logSteps_append_one]
      by_cases hsid : sid = (calls i).sessionId
      · rw [if_pos hsid, if_pos hsid.symm, hstore sid, List.append_assoc]
      · rw [if_neg hsid, if_neg (fun hc => hsid hc.symm), List.append_nil, hstore sid]
    · show (s.acceptedLog ++ [i]).Nodup
      exact List.Nodup.append hnodup (List.nodup_singleton i)
        (by simp [List.disjoint_singleton, hni])
    · intro j
      show j ∈ s.acceptedLog ++ [i]
        ↔ (if j = i then CallPhase.finished else s.phases j) = CallPhase.finished
      rw [List.mem_append, List.mem_singleton]
      by_cases hji : j = i
      · rw [if_pos hji]
        simp [hji]
      · rw [if_neg hji]
        simp [hji, hiff j]
  | finished =>
    have hrun : runCall settingsOf calls s i = s := by
      rw [runCall, hp]
    rw [hrun]
    exact ⟨hstore, hnodup, hiff⟩

lemma runSched_inv {n : Nat} (settingsOf : String → List HealingStrategy)
    (calls : Fin n → AddCall) (init : String → List TestStep) :
    ∀ (sched : List (Fin n)) (s : ConcState n),
      ConcInv settingsOf calls init s →
      ConcInv settingsOf calls init (runSched settingsOf calls s sched)
  | [], _, h => h
  | i :: rest, s, h =>
    runSched_inv settingsOf calls init rest _ (runCall_inv settingsOf calls init s i h)

lemma initConcState_inv {n : Nat} (settingsOf : String → List HealingStrategy)
    (calls : Fin n → AddCall) (init : String → List TestStep) :
    ConcInv settingsOf calls init (initConcState (n := n) init) := by
  refine ⟨?_, ?_, ?_⟩
  · intro sid
    show init sid = init sid ++ logSteps settingsOf calls [] sid
    rw [logSteps]
    simp
  · exact List.nodup_nil
  · intro i
    show i ∈ ([] : List (Fin n)) ↔ CallPhase.ready = CallPhase.finished
    simp

/-! ## Claim theorems: session store -/

/-- Claim C1 (code bug in `updateStep`): updating a step's primary locator from
`#submit-button` to `.alt-button` returns a step whose fallback list is the old
one, byte-for-byte unchanged, although the Healing Engine would produce a
different list for the new locator — the recomputation required by the spec
does not happen. -/
theorem updateStep_keeps_stale_fallbacks :
    (updateStep stateWithLogin "sess-1" "step-1" updSelectorAlt
        "2026-01-01T00:01:00.000Z").toOption.map
        (fun r => (r.2.selector, r.2.fallbackSelectors))
      = some (".alt-button", some fallbacksSubmit)
    ∧ fallbacksSubmit
      ≠ generateFallbackSelectors ".alt-button" StepType.click
          [HealingStrategy.attribute_matching, HealingStrategy.text_content_matching] := by
  constructor
  · rfl
  · decide

/-- Claim C2 (code bug in `getSession`): a synchronous lookup that misses the
in-memory map returns `none` (not found) immediately even though the session
exists durably — the hydration is detached, not awaited.  Once the detached
hydration has landed the next lookup hits memory, and the awaited
`getSessionAsync` path does hydrate before returning. -/
theorem getSession_cold_miss_returns_none :
    (getSession stateColdMiss "sess-2").1 = none
    ∧ alistGet stateColdMiss.dbSessions "sess-2" = some sessionDurable
    ∧ (getSession ((getSession stateColdMiss "sess-2").2) "sess-2").1
        = some sessionDurable
    ∧ (getSessionAsync stateColdMiss "sess-2").1 = some sessionDurable :=
  ⟨rfl, rfl, rfl, rfl⟩

/-- Counterexample to claim C3: pausing an already-`stopped` session, and
pausing an already-`paused` session, both succeed (no `InvalidTransition`-class
error exists in the code) and mutate status and timestamp. -/
theorem pauseRecording_no_transition_check :
    ((pauseRecording stateStopped "sess-1" "2026-01-01T00:06:00.000Z").toOption.bind
        (fun st => alistGet st.activeSessions "sess-1")).map
        (fun s => (s.status, s.updatedAt))
      = some (SessionStatus.paused, "2026-01-01T00:06:00.000Z")
    ∧ ((pauseRecording statePaused "sess-1" "2026-01-01T00:06:00.000Z").toOption.bind
        (fun st => alistGet st.activeSessions "sess-1")).map
        (fun s => (s.status, s.updatedAt))
      = some (SessionStatus.paused, "2026-01-01T00:06:00.000Z") :=
  ⟨rfl, rfl⟩

/-- Claim C3 amended: `pauseRecording` checks only that the session exists; for
any in-memory session, whatever its current status, the pause succeeds, sets
the status to `paused`, refreshes `updatedAt`, clears the browser flag and
mirrors the status durably. -/
theorem pauseRecording_unguarded (st : ManagerState) (sid now : String)
    (sess : TestSession) (h : alistGet st.activeSessions sid = some sess) :
    pauseRecording st sid now = Except.ok
      { activeSessions := alistSet st.activeSessions sid
          { sess with
        status := SessionStatus.paused, updatedAt := now },
        dbSessions := dbUpdateSessionStatus st.dbSessions sid SessionStatus.paused now,
        browserRecording := st.browserRecording.map
          (fun p => if p.1 = sid then (p.1, false) else p) }
    ∧ alistGet (alistSet st.activeSessions sid
          { sess with status := SessionStatus.paused, updatedAt := now }) sid
        = some { sess with status := SessionStatus.paused, updatedAt := now } := by
  have hget : getSession st sid = (some sess, st) := by
    rw [getSession, h]
  constructor
  · rw [pauseRecording, hget]
  · exact alistGet_alistSet_self _ _ _

/-- Witness for the amended C3 at the already-stopped session. -/
theorem pauseRecording_unguarded_witness :
    pauseRecording stateStopped "sess-1" "2026-01-01T00:08:00.000Z" = Except.ok
      { activeSessions := alistSet stateStopped.activeSessions "sess-1"
          { sessionStopped with
            status := SessionStatus.paused,
            updatedAt := "2026-01-01T00:08:00.000Z" },
        dbSessions := dbUpdateSessionStatus stateStopped.dbSessions "sess-1"
          SessionStatus.paused "2026-01-01T00:08:00.000Z",
        browserRecording := stateStopped.browserRecording.map
          (fun p => if p.1 = "sess-1" then (p.1, false) else p) }
    ∧ alistGet (alistSet stateStopped.activeSessions "sess-1"
          { sessionStopped with
            status := SessionStatus.paused,
            updatedAt := "2026-01-01T00:08:00.000Z" }) "sess-1"
        = some { sessionStopped with
            status := SessionStatus.paused,
            updatedAt := "2026-01-01T00:08:00.000Z" } :=
  pauseRecording_unguarded stateStopped "sess-1" "2026-01-01T00:08:00.000Z"
    sessionStopped rfl

/-- Counterexample to claim C9: a second stop on an already-stopped session
succeeds but refreshes `updatedAt`, so the observable state (status and
timestamps) is not left unchanged. -/
theorem stopRecording_second_stop_mutates :
    ((stopRecording stateStopped "sess-1" "2026-01-01T00:07:00.000Z").toOption.bind
        (fun st => alistGet st.activeSessions "sess-1")).map
        (fun s => (s.status, s.updatedAt))
      = some (SessionStatus.stopped, "2026-01-01T00:07:00.000Z")
    ∧ sessionStopped.updatedAt ≠ "2026-01-01T00:07:00.000Z" :=
  ⟨rfl, by decide⟩

/-- Claim C9 amended: stopping an already-stopped session succeeds (it is
idempotent on the status, which stays `stopped`) but is not a pure no-op: it
refreshes `updatedAt` and rewrites the browser flag and the durable mirror. -/
theorem stopRecording_idempotent_status (st : ManagerState) (sid now : String)
    (sess : TestSession) (h : alistGet st.activeSessions sid = some sess)
    (hs : sess.status = SessionStatus.stopped) :
    stopRecording st sid now = Except.ok
      { activeSessions := alistSet st.activeSessions sid
          { sess with
        status := SessionStatus.stopped, updatedAt := now },
        dbSessions := dbUpdateSessionStatus st.dbSessions sid SessionStatus.stopped now,
        browserRecording := st.browserRecording.map
          (fun p => if p.1 = sid then (p.1, false) else p) }
    ∧ TestSession.status
        { sess with status := SessionStatus.stopped, updatedAt := now } = sess.status := by
  have hget : getSession st sid = (some sess, st) := by
    rw [getSession, h]
  constructor
  · rw [stopRecording, hget]
  · rw [hs]

/-- Witness for the amended C9 at the already-stopped session. -/
theorem stopRecording_idempotent_status_witness :
    stopRecording stateStopped "sess-1" "2026-01-01T00:09:00.000Z" = Except.ok
      { activeSessions := alistSet stateStopped.activeSessions "sess-1"
          { sessionStopped with
            status := SessionStatus.stopped,
            updatedAt := "2026-01-01T00:09:00.000Z" },
        dbSessions := dbUpdateSessionStatus stateStopped.dbSessions "sess-1"
          SessionStatus.stopped "2026-01-01T00:09:00.000Z",
        browserRecording := stateStopped.browserRecording.map
          (fun p => if p.1 = "sess-1" then (p.1, false) else p) }
    ∧ TestSession.status
        { sessionStopped with
          status := SessionStatus.stopped,
          updatedAt := "2026-01-01T00:09:00.000Z" } = sessionStopped.status :=
  stopRecording_idempotent_status stateStopped "sess-1" "2026-01-01T00:09:00.000Z"
    sessionStopped rfl rfl

/-! ## Claim theorems: concurrency and code generation -/

/-- Claim C4: in the event-loop interleaving model of `addStep`, every schedule
of concurrent calls yields, for every session id, a step list equal to the
initial list plus exactly that session's accepted steps in acceptance
(serialization) order; no call is accepted twice; a call is logged exactly when
it has finished, so a completed schedule loses no call.  The per-session
equation depends only on that session's log entries, so calls for different
session ids interleave freely without affecting each other. -/
theorem addStep_serialization {n : Nat} (settingsOf : String → List HealingStrategy)
    (calls : Fin n → AddCall) (init : String → List TestStep) (sched : List (Fin n)) :
    (∀ sid, (runSched settingsOf calls (initConcState init) sched).store sid
        = init sid
          ++ logSteps settingsOf calls
              (runSched settingsOf calls (initConcState init) sched).acceptedLog sid)
    ∧ (runSched settingsOf calls (initConcState init) sched).acceptedLog.Nodup
    ∧ (∀ i, i ∈ (runSched settingsOf calls (initConcState init) sched).acceptedLog
        ↔ (runSched settingsOf calls (initConcState init) sched).phases i
            = CallPhase.finished)
    ∧ ((∀ i, (runSched settingsOf calls (initConcState init) sched).phases i
          = CallPhase.finished)
        → ∀ i, i ∈ (runSched settingsOf calls (initConcState init) sched).acceptedLog) := by
  have hinv := runSched_inv settingsOf calls init sched (initConcState init)
    (initConcState_inv settingsOf calls init)
  exact ⟨hinv.1, hinv.2.1, hinv.2.2, fun hall i => (hinv.2.2 i).mpr (hall i)⟩

/-- Witness for C4: two concrete concurrent calls on one session under a
schedule whose acceptance order (call B, then call A) differs from issue
order; nothing is lost or duplicated and the store shows acceptance order. -/
theorem addStep_serialization_witness :
    (runSched settingsOfConst callsAB (initConcState emptyStore) schedAB).store "s"
      = emptyStore "s"
        ++ logSteps settingsOfConst callsAB
            (runSched settingsOfConst callsAB (initConcState emptyStore) schedAB).acceptedLog
            "s"
    ∧ (runSched settingsOfConst callsAB (initConcState emptyStore) schedAB).acceptedLog.Nodup
    ∧ (0 : Fin 2)
        ∈ (runSched settingsOfConst callsAB (initConcState emptyStore) schedAB).acceptedLog
    ∧ (runSched settingsOfConst callsAB (initConcState emptyStore) schedAB).acceptedLog
        = [1, 0] := by
  refine ⟨(addStep_serialization settingsOfConst callsAB emptyStore schedAB).1 "s",
    (addStep_serialization settingsOfConst callsAB emptyStore schedAB).2.1,
    (addStep_serialization settingsOfConst callsAB emptyStore schedAB).2.2.2 ?_ 0, ?_⟩
  · intro i
    fin_cases i <;> rfl
  · rfl

/-- Claim C8: the rendered script depends only on the session's test name and
step list — in particular it is byte-identical across renders of an unchanged
session and is independent of timestamps, status, settings, metadata, or any
external state. -/
theorem generatePlaywrightTest_deterministic (s1 s2 : TestSession)
    (h1 : s1.testName = s2.testName) (h2 : s1.steps = s2.steps) :
    generatePlaywrightTest s1 = generatePlaywrightTest s2 := by
  simp only [generatePlaywrightTest, generateTestFunction, h1, h2]

/-- Witness for C8: `sessionLogin` and `sessionPaused` differ in status and
timestamp but render identically; rendering the same session twice is
byte-identical. -/
theorem generatePlaywrightTest_deterministic_witness :
    generatePlaywrightTest sessionLogin = generatePlaywrightTest sessionPaused
    ∧ generatePlaywrightTest sessionLogin = generatePlaywrightTest sessionLogin :=
  ⟨generatePlaywrightTest_deterministic sessionLogin sessionPaused rfl rfl,
   generatePlaywrightTest_deterministic sessionLogin sessionLogin rfl rfl⟩
